import Mathlib

/-!
Verification of the uuidv47 transform and build tooling of python-uuidv47.

The repository's own Python sources (`setup.py`, `src/download_header.py`)
only fetch and build the C core `uuidv47.h`; the core transform itself is
therefore modelled from the specification (identifier codec, SipHash-family
keystream generator, mask transform), while the Python build helpers are
embedded directly from the source.
-/

namespace UUIDv47

/-- Modelled from the spec: the five typed sub-fields of a 128-bit
identifier — `timestamp` (48 bits, high-order), `version` (4 bits),
`rand_a` (12 bits), `variant` (2 bits), `rand_b` (62 bits).  The physical
bit offsets are identical between the two shapes. -/
structure Fields where
  timestamp : Nat
  version : Nat
  rand_a : Nat
  variant : Nat
  rand_b : Nat
deriving DecidableEq, Repr

/-- Modelled from the spec: `split` parses a 128-bit value (big-endian bit
numbering) into its typed sub-fields.  Total; performs no validation of
`version`/`variant`. -/
def split (x : Nat) : Fields :=
  ⟨x / 2 ^ 80, x / 2 ^ 76 % 2 ^ 4, x / 2 ^ 64 % 2 ^ 12, x / 2 ^ 62 % 2 ^ 2, x % 2 ^ 62⟩

/-- Modelled from the spec: `join` reassembles sub-fields back into a
128-bit value, truncating each field to its exact bit width (exact
bit-width truncation is load-bearing). -/
def join (f : Fields) : Nat :=
  f.timestamp % 2 ^ 48 * 2 ^ 80 + f.version % 2 ^ 4 * 2 ^ 76 +
    f.rand_a % 2 ^ 12 * 2 ^ 64 + f.variant % 2 ^ 2 * 2 ^ 62 + f.rand_b % 2 ^ 62

/-- 64-bit wrap-around. -/
def wrap (x : Nat) : Nat := x % 2 ^ 64

/-- 64-bit left rotation of a value below `2 ^ 64`. -/
def rotl (x b : Nat) : Nat := (x <<< b) % 2 ^ 64 ||| x >>> (64 - b)

/-- Internal state of the SipHash permutation: four 64-bit lanes. -/
structure Sip where
  v0 : Nat
  v1 : Nat
  v2 : Nat
  v3 : Nat
deriving DecidableEq, Repr

/-- One round of the SipHash ARX permutation, all lanes wrapped to 64 bits. -/
def sipRound (s : Sip) : Sip :=
  let a0 := wrap (s.v0 + s.v1)
  let b1 := rotl s.v1 13
  let c1 := b1 ^^^ a0
  let d0 := rotl a0 32
  let a2 := wrap (s.v2 + s.v3)
  let b3 := rotl s.v3 16
  let c3 := b3 ^^^ a2
  let e0 := wrap (d0 + c3)
  let d3 := rotl c3 21
  let e3 := d3 ^^^ e0
  let d2 := wrap (a2 + c1)
  let d1 := rotl c1 17
  let e1 := d1 ^^^ d2
  let e2 := rotl d2 32
  ⟨e0, e1, e2, e3⟩

/-- Modelled from the spec: SipHash-2-4 of a single 8-byte message block
`m`, keyed by the two 64-bit key halves `k0`, `k1`. -/
def siphash24 (k0 k1 m : Nat) : Nat :=
  let s0 : Sip := ⟨0x736f6d6570736575 ^^^ k0, 0x646f72616e646f6d ^^^ k1,
                   0x6c7967656e657261 ^^^ k0, 0x7465646279746573 ^^^ k1⟩
  let s1 : Sip := { s0 with v3 := s0.v3 ^^^ m }
  let s2 := sipRound (sipRound s1)
  let s3 : Sip := { s2 with v0 := s2.v0 ^^^ m }
  let b : Nat := 0x0800000000000000
  let s4 : Sip := { s3 with v3 := s3.v3 ^^^ b }
  let s5 := sipRound (sipRound s4)
  let s6 : Sip := { s5 with v0 := s5.v0 ^^^ b, v2 := s5.v2 ^^^ 0xff }
  let s7 := sipRound (sipRound (sipRound (sipRound s6)))
  s7.v0 ^^^ s7.v1 ^^^ s7.v2 ^^^ s7.v3

/-- Modelled from the spec: the keystream generator
`derive(timestamp48, key128, field_selector) -> 64-bit block`.  The exact
byte-packing convention is absent from this repository; the message is the
deterministic packing of the 48-bit timestamp with the selector constant
in the byte above it, keyed by the two big-endian 64-bit halves of the
128-bit key. -/
def derive (ts key sel : Nat) : Nat :=
  siphash24 (key / 2 ^ 64 % 2 ^ 64) (key % 2 ^ 64) (sel % 2 ^ 8 * 2 ^ 48 + ts % 2 ^ 48)

/-- Modelled from the spec: fixed version nibble of the time-ordered shape. -/
def ORIGINAL_VERSION : Nat := 7

/-- Modelled from the spec: fixed version nibble of the facade shape. -/
def FACADE_VERSION : Nat := 4

/-- Modelled from the spec: fixed RFC-style variant marker of the
time-ordered shape. -/
def ORIGINAL_VARIANT : Nat := 2

/-- Modelled from the spec: fixed RFC-style variant marker of the facade
shape (the same marker value in both shapes). -/
def FACADE_VARIANT : Nat := 2

/-- Modelled from the spec: `encode(id128, key128)` — split, XOR the
keystream masks onto `rand_a`/`rand_b`, overwrite `version`/`variant`
with the facade constants, rejoin. -/
def encode (x k : Nat) : Nat :=
  let f := split x
  let maskA := derive f.timestamp k 0 % 2 ^ 12
  let maskB := derive f.timestamp k 1 % 2 ^ 62
  join ⟨f.timestamp, FACADE_VERSION, f.rand_a ^^^ maskA, FACADE_VARIANT, f.rand_b ^^^ maskB⟩

/-- Modelled from the spec: `decode(id128, key128)` — split the facade
(the timestamp is read as-is, unmasked), rederive the identical masks,
XOR them back out, restore the original `version`/`variant`, rejoin. -/
def decode (y k : Nat) : Nat :=
  let f := split y
  let maskA := derive f.timestamp k 0 % 2 ^ 12
  let maskB := derive f.timestamp k 1 % 2 ^ 62
  join ⟨f.timestamp, ORIGINAL_VERSION, f.rand_a ^^^ maskA, ORIGINAL_VARIANT, f.rand_b ^^^ maskB⟩

/-- Modelled from the spec: the single error taxonomy of the transform —
malformed input width. -/
inductive UuidError where
  | InvalidLength
deriving DecidableEq, Repr

/-- Big-endian interpretation of a byte sequence as a natural number. -/
def bytesToNat (bs : List Nat) : Nat := bs.foldl (fun acc b => acc * 256 + b % 256) 0

/-- Big-endian encoding of a natural number as `n` bytes. -/
def natToBytes : Nat → Nat → List Nat
  | 0, _ => []
  | n + 1, x => natToBytes n (x / 256) ++ [x % 256]

/-- Modelled from the spec: the byte-sequence boundary of `encode` — a
caller-supplied identifier or key that is not exactly 16 bytes fails with
`InvalidLength` rather than being truncated or zero-padded. -/
def encodeBytes (idb kb : List Nat) : Except UuidError (List Nat) :=
  if idb.length = 16 ∧ kb.length = 16 then
    Except.ok (natToBytes 16 (encode (bytesToNat idb) (bytesToNat kb)))
  else Except.error UuidError.InvalidLength

/-- Modelled from the spec: the byte-sequence boundary of `decode`, with
the same `InvalidLength` validation as `encodeBytes`. -/
def decodeBytes (idb kb : List Nat) : Except UuidError (List Nat) :=
  if idb.length = 16 ∧ kb.length = 16 then
    Except.ok (natToBytes 16 (decode (bytesToNat idb) (bytesToNat kb)))
  else Except.error UuidError.InvalidLength

namespace Build

/-- Outcome of the network interaction of `download_header`
(`setup.py` / `src/download_header.py`): a response with a status and
body, a `URLError`, or any other exception raised during the download or
the write (`leftover` is the file content left behind, if any, when the
exception strikes mid-write). -/
inductive NetResponse where
  | ok (status : Nat) (content : String)
  | urlError (msg : String)
  | otherError (msg : String) (leftover : Option String)
deriving DecidableEq, Repr

/-- The slice of the file system `download_header` touches: the content of
`src/uuidv47.h`, when that file exists. -/
structure FS where
  header : Option String
deriving DecidableEq, Repr

/-- Result of `download_header`: the returned boolean, the file system
afterwards, and whether a network connection was opened. -/
structure DownloadResult where
  success : Bool
  fs : FS
  openedNetwork : Bool
deriving DecidableEq, Repr

/-- Embedding of `download_header` (`setup.py` lines 11-43,
`src/download_header.py` lines 15-45): if the header already exists,
return `True` immediately; otherwise fetch it, rejecting a non-200 status
and catching `URLError` and every other exception, returning `False`. -/
def download_header (fs : FS) (net : NetResponse) : DownloadResult :=
  match fs.header with
  | some _ => ⟨true, fs, false⟩
  | none =>
    match net with
    | .ok status content =>
        if status ≠ 200 then ⟨false, fs, true⟩
        else ⟨true, ⟨some content⟩, true⟩
    | .urlError _ => ⟨false, fs, true⟩
    | .otherError _ leftover => ⟨false, ⟨leftover⟩, true⟩

/-- Outcome of the subprocess interactions of `verify_c_compatibility`:
gcc compiled the test generator (and running it succeeded or raised
`CalledProcessError`), gcc itself raised `CalledProcessError`, or gcc was
missing (`FileNotFoundError`). -/
inductive CCOutcome where
  | compiledOk (runOk : Bool)
  | compileError
  | gccMissing
deriving DecidableEq, Repr

/-- The slice of the file system `verify_c_compatibility` touches: whether
`src/test_vectors_gen.c` and the compiled binary `src/test_vectors_gen`
exist. -/
structure BuildFS where
  test_source : Bool
  test_bin : Bool
deriving DecidableEq, Repr

/-- Embedding of `verify_c_compatibility` (`setup.py` lines 46-82): skip
when the C test source is missing; otherwise compile and run it inside a
`try` whose `finally` unlinks the compiled binary whenever it exists. -/
def verify_c_compatibility (fs : BuildFS) (outcome : CCOutcome) : Bool × BuildFS :=
  if fs.test_source = false then (true, fs)
  else
    let step : Bool × BuildFS :=
      match outcome with
      | .compiledOk runOk => (runOk, { fs with test_bin := true })
      | .compileError => (false, fs)
      | .gccMissing => (true, fs)
    (step.1, { step.2 with test_bin := false })

end Build

lemma join_split (x : Nat) (hx : x < 2 ^ 128) : join (split x) = x := by
  simp only [split, join]
  omega

lemma split_join (f : Fields) :
    split (join f) =
      ⟨f.timestamp % 2 ^ 48, f.version % 2 ^ 4, f.rand_a % 2 ^ 12,
        f.variant % 2 ^ 2, f.rand_b % 2 ^ 62⟩ := by
  simp only [split, join, Fields.mk.injEq]
  omega

lemma decode_encode (x k : Nat) (hx : x < 2 ^ 128)
    (hv : (split x).version = ORIGINAL_VERSION)
    (hva : (split x).variant = ORIGINAL_VARIANT) :
    decode (encode x k) k = x := by
  have hts : x / 2 ^ 80 < 2 ^ 48 := by omega
  have hra : x / 2 ^ 64 % 2 ^ 12 < 2 ^ 12 := Nat.mod_lt _ (by norm_num)
  have hrb : x % 2 ^ 62 < 2 ^ 62 := Nat.mod_lt _ (by norm_num)
  have hmA : derive (x / 2 ^ 80) k 0 % 2 ^ 12 < 2 ^ 12 := Nat.mod_lt _ (by norm_num)
  have hmB : derive (x / 2 ^ 80) k 1 % 2 ^ 62 < 2 ^ 62 := Nat.mod_lt _ (by norm_num)
  simp only [split] at hv hva
  simp only [encode, decode, split_join]
  simp only [split]
  rw [Nat.mod_eq_of_lt hts,
      Nat.mod_eq_of_lt (Nat.xor_lt_two_pow hra hmA),
      Nat.mod_eq_of_lt (Nat.xor_lt_two_pow hrb hmB),
      Nat.xor_cancel_right, Nat.xor_cancel_right,
      ← hv, ← hva]
  have h := join_split x hx
  simp only [split] at h
  exact h

lemma join_timestamp (f : Fields) : join f / 2 ^ 80 = f.timestamp % 2 ^ 48 := by
  have h := congrArg Fields.timestamp (split_join f)
  simpa [split] using h

lemma join_version (f : Fields) : join f / 2 ^ 76 % 2 ^ 4 = f.version % 2 ^ 4 := by
  have h := congrArg Fields.version (split_join f)
  simpa [split] using h

lemma join_variant (f : Fields) : join f / 2 ^ 62 % 2 ^ 2 = f.variant % 2 ^ 2 := by
  have h := congrArg Fields.variant (split_join f)
  simpa [split] using h

/-- C1: for every 128-bit identifier `x` in the original (time-ordered)
shape and every 128-bit key `k`, `decode (encode x k) k = x`, bit-exactly. -/
theorem round_trip_law (x k : Nat) (hx : x < 2 ^ 128) (hk : k < 2 ^ 128)
    (hv : (split x).version = ORIGINAL_VERSION)
    (hva : (split x).variant = ORIGINAL_VARIANT) :
    decode (encode x k) k = x :=
  decode_encode x k hx hv hva

theorem round_trip_law_witness :
    decode (encode (join ⟨1, 7, 2, 2, 3⟩) 0xDEADBEEF) 0xDEADBEEF = join ⟨1, 7, 2, 2, 3⟩ :=
  round_trip_law (join ⟨1, 7, 2, 2, 3⟩) 0xDEADBEEF (by decide) (by decide)
    (by decide) (by decide)

/-- C2: for every 128-bit identifier `x` and every 128-bit key `k`, the
high 48 bits (the timestamp field) of `encode x k` equal the high 48 bits
of `x`, and likewise for `decode x k`: neither operation alters the
timestamp bits. -/
theorem timestamp_preservation (x k : Nat) (hx : x < 2 ^ 128) (hk : k < 2 ^ 128) :
    encode x k / 2 ^ 80 = x / 2 ^ 80 ∧ decode x k / 2 ^ 80 = x / 2 ^ 80 := by
  constructor <;>
  · simp only [encode, decode, join_timestamp, split]
    exact Nat.mod_eq_of_lt (by omega)

theorem timestamp_preservation_witness :
    encode 12345 6789 / 2 ^ 80 = 12345 / 2 ^ 80 ∧
      decode 12345 6789 / 2 ^ 80 = 12345 / 2 ^ 80 :=
  timestamp_preservation 12345 6789 (by decide) (by decide)

/-- C3: the version field of `encode x k` equals the facade-version
constant and its variant field equals the facade-variant constant, for all
`x, k`; and for every facade-shaped `y`, the version and variant fields of
`decode y k` equal the original-shape constants. -/
theorem shape_correctness (x y k : Nat)
    (hy : (split y).version = FACADE_VERSION ∧ (split y).variant = FACADE_VARIANT) :
    ((split (encode x k)).version = FACADE_VERSION ∧
      (split (encode x k)).variant = FACADE_VARIANT) ∧
    ((split (decode y k)).version = ORIGINAL_VERSION ∧
      (split (decode y k)).variant = ORIGINAL_VARIANT) := by
  simp only [encode, decode, split_join]
  refine ⟨⟨rfl, rfl⟩, rfl, rfl⟩

theorem shape_correctness_witness :
    (split (encode 5 11)).version = FACADE_VERSION ∧
      (split (decode (join ⟨9, 4, 1, 2, 6⟩) 11)).version = ORIGINAL_VERSION :=
  ⟨(shape_correctness 5 (join ⟨9, 4, 1, 2, 6⟩) 11 (by decide)).1.1,
   (shape_correctness 5 (join ⟨9, 4, 1, 2, 6⟩) 11 (by decide)).2.1⟩

/-- C4: the keystream derivation is deterministic — two calls of `derive`
with identical `(timestamp48, key128, field_selector)` inputs produce
identical 64-bit outputs. -/
theorem derive_deterministic (t t' k k' s s' : Nat)
    (ht : t = t') (hk : k = k') (hs : s = s') :
    derive t k s = derive t' k' s' := by
  rw [ht, hk, hs]

theorem derive_deterministic_witness :
    derive 99 12345 0 = derive 99 12345 0 :=
  derive_deterministic 99 99 12345 12345 0 0 rfl rfl rfl

/-- C6: for every 128-bit value `x`, `join (split x) = x`; `split` and
`join` are total functions, defined on every 128-bit bit pattern with no
validation of the version or variant fields. -/
theorem codec_round_trip (x : Nat) (hx : x < 2 ^ 128) : join (split x) = x :=
  join_split x hx

theorem codec_round_trip_witness :
    join (split 0x0123456789ABCDEF0123456789ABCDEF) = 0x0123456789ABCDEF0123456789ABCDEF :=
  codec_round_trip 0x0123456789ABCDEF0123456789ABCDEF (by decide)

/-- C5: an identifier or key that is not exactly 16 bytes makes `encode`
and `decode` fail with `InvalidLength`; for well-formed 16-byte inputs
both succeed, with no other failure mode. -/
theorem length_validation (idb kb : List Nat) :
    (¬(idb.length = 16 ∧ kb.length = 16) →
      encodeBytes idb kb = Except.error UuidError.InvalidLength ∧
        decodeBytes idb kb = Except.error UuidError.InvalidLength) ∧
    (idb.length = 16 ∧ kb.length = 16 →
      (∃ r, encodeBytes idb kb = Except.ok r) ∧
        ∃ r, decodeBytes idb kb = Except.ok r) := by
  constructor <;> intro h <;> simp [encodeBytes, decodeBytes, h]

theorem length_validation_witness :
    (encodeBytes [1, 2, 3] (List.replicate 16 0) = Except.error UuidError.InvalidLength ∧
      decodeBytes [1, 2, 3] (List.replicate 16 0) = Except.error UuidError.InvalidLength) ∧
    (∃ r, encodeBytes (List.replicate 16 0) (List.replicate 16 0) = Except.ok r) :=
  ⟨(length_validation [1, 2, 3] (List.replicate 16 0)).1 (by decide),
   ((length_validation (List.replicate 16 0) (List.replicate 16 0)).2 (by decide)).1⟩

/-- C7 counterexample: the literal all-zero 128-bit identifier does not
round-trip — its version field is 0, not the original-shape constant, and
`decode` rewrites the version field to the original-shape constant, so
`decode (encode 0 0) 0` differs from `0`. -/
theorem boundary_literal_counterexample : decode (encode 0 0) 0 ≠ 0 := by
  intro h
  have h7 : decode (encode 0 0) 0 / 2 ^ 76 % 2 ^ 4 = ORIGINAL_VERSION % 2 ^ 4 := by
    simp only [decode, join_version]
  rw [h] at h7
  simp [ORIGINAL_VERSION] at h7

/-- C7 amended: the boundary identifiers whose non-fixed fields are all
zero or all one (with `version`/`variant` holding the original-shape
constants, since the literal all-zero and all-one 128-bit patterns are not
in the original shape) encode and decode correctly with no special-casing,
under the all-zero key and under the all-one key; the all-zero key still
yields a deterministic, invertible transform. -/
theorem boundary_cases :
    decode (encode (join ⟨0, 7, 0, 2, 0⟩) 0) 0 = join ⟨0, 7, 0, 2, 0⟩ ∧
    decode (encode (join ⟨2 ^ 48 - 1, 7, 2 ^ 12 - 1, 2, 2 ^ 62 - 1⟩) 0) 0 =
      join ⟨2 ^ 48 - 1, 7, 2 ^ 12 - 1, 2, 2 ^ 62 - 1⟩ ∧
    decode (encode (join ⟨0, 7, 0, 2, 0⟩) (2 ^ 128 - 1)) (2 ^ 128 - 1) =
      join ⟨0, 7, 0, 2, 0⟩ ∧
    decode (encode (join ⟨2 ^ 48 - 1, 7, 2 ^ 12 - 1, 2, 2 ^ 62 - 1⟩) (2 ^ 128 - 1))
      (2 ^ 128 - 1) = join ⟨2 ^ 48 - 1, 7, 2 ^ 12 - 1, 2, 2 ^ 62 - 1⟩ :=
  ⟨decode_encode _ 0 (by decide) (by decide) (by decide),
   decode_encode _ 0 (by decide) (by decide) (by decide),
   decode_encode _ (2 ^ 128 - 1) (by decide) (by decide) (by decide),
   decode_encode _ (2 ^ 128 - 1) (by decide) (by decide) (by decide)⟩

namespace Build

/-- C8: when the target header file already exists, `download_header`
returns `True` without opening any network connection and without
modifying the existing file. -/
theorem download_header_skips_existing (fs : FS) (net : NetResponse)
    (h : fs.header.isSome) :
    download_header fs net = ⟨true, fs, false⟩ := by
  obtain ⟨c⟩ := fs
  cases c with
  | none => simp at h
  | some s => cases net <;> rfl

theorem download_header_skips_existing_witness :
    download_header ⟨some "header"⟩ (.urlError "offline") = ⟨true, ⟨some "header"⟩, false⟩ :=
  download_header_skips_existing ⟨some "header"⟩ (.urlError "offline") rfl

/-- C9: `download_header` never propagates an exception — a non-200
status, a `URLError` and any other exception all yield the return value
`False`; and in the non-200 case the file system is left untouched (no
header file is written). -/
theorem download_header_never_raises (fs : FS) (h : fs.header = none) :
    (∀ s c, s ≠ 200 → download_header fs (.ok s c) = ⟨false, fs, true⟩) ∧
    (∀ m, (download_header fs (.urlError m)).success = false) ∧
    (∀ m lo, (download_header fs (.otherError m lo)).success = false) := by
  obtain ⟨c⟩ := fs
  cases h
  refine ⟨fun s c hs => ?_, fun m => rfl, fun m lo => rfl⟩
  simp [download_header, hs]

theorem download_header_never_raises_witness :
    download_header ⟨none⟩ (.ok 404 "not found") = ⟨false, ⟨none⟩, true⟩ ∧
      (download_header ⟨none⟩ (.urlError "offline")).success = false :=
  ⟨(download_header_never_raises ⟨none⟩ rfl).1 404 "not found" (by decide),
   (download_header_never_raises ⟨none⟩ rfl).2.1 "offline"⟩

/-- C10: on every return path of `verify_c_compatibility` that enters the
`try` block (successful run, compile or run failure, missing gcc), the
compiled test binary does not exist on disk after the function returns:
the `finally` block deletes it whenever it exists. -/
theorem verify_c_compatibility_cleans_binary (fs : BuildFS) (outcome : CCOutcome)
    (h : fs.test_source = true) :
    (verify_c_compatibility fs outcome).2.test_bin = false := by
  cases outcome <;> simp [verify_c_compatibility, h]

theorem verify_c_compatibility_cleans_binary_witness :
    (verify_c_compatibility ⟨true, true⟩ (.compiledOk true)).2.test_bin = false :=
  verify_c_compatibility_cleans_binary ⟨true, true⟩ (.compiledOk true) rfl

end Build

end UUIDv47
